import Mathlib

/-!
Shallow embedding of src/tracepath.c (iputils tracepath).

The embedding covers the parts of the program the verified claims are
about: the 64-slot probe history ring and its lookup in recverr
(lines 167-181), the echoed-payload resolution of the send-side hop
count (lines 182-189), the receive-side hop normalization
(lines 278-283), the errno classification switch (lines 285-331), the
per-attempt send of probe_ttl (lines 342-368), and the TTL escalation
loop of main (lines 590-639).  Stateful C code becomes explicit state
passing; the asynchronous inputs (recvmsg results, probe_ttl results)
become explicit oracle values; machine integers become Int/Nat.
-/

namespace Tracepath

/-- C struct timeval, the timestamp type used throughout the program:
seconds and microseconds. -/
structure Timeval where
  sec : Int
  usec : Int
  deriving DecidableEq, Repr

/-- C struct hhistory (tracepath.c lines 58-61): one outstanding-probe
record of the history ring, holding the probe's hop count and its send
time.  A record with hops = 0 is empty. -/
structure HHistory where
  hops : Int
  sendtime : Timeval
  deriving DecidableEq, Repr

/-- The 64-slot history ring, field his of struct run_state. -/
abbrev His := Fin 64 → HHistory

/-- C struct probehdr (lines 63-66): the wire payload header, a 32-bit
TTL field followed by the send timestamp. -/
structure Probehdr where
  ttl : Nat
  tv : Timeval
  deriving DecidableEq, Repr

/-- The mutable fields of struct run_state (lines 68-84) that the
probing and decoding code reads or writes. -/
structure RunState where
  his : His
  hisptr : Fin 64
  base_port : Nat
  max_hops : Int
  overhead : Int
  mtu : Int
  hops_to : Int
  hops_from : Int
  mapped : Bool

/-- C struct sock_extended_err: the decoded delivery-failure record of
one notification. -/
structure SockExtErr where
  ee_errno : Nat
  ee_origin : Nat
  ee_type : Nat
  ee_code : Nat
  ee_info : Nat
  deriving DecidableEq, Repr

/-- One result of recvmsg(fd, ..., MSG_ERRQUEUE) in recverr, together
with the clock value gettimeofday stored in tv at that iteration
(line 151): the number of payload bytes echoed back, their decoded
probehdr contents, the reply's destination port (host order), the
extended error record from the control messages (none models e == NULL),
and the ancillary received hop limit (none models the absence of an
IP_TTL / IPV6_HOPLIMIT control message, which leaves rethops at -1). -/
structure RecvMsg where
  recv_size : Nat
  rcvbuf : Probehdr
  port : Nat
  err : Option SockExtErr
  hoplimit : Option Int
  now : Timeval
  deriving DecidableEq, Repr

/-- sizeof(struct probehdr): 4-byte ttl, 4 bytes padding, 16-byte
timeval on the 64-bit targets the program is built for. -/
def sizeof_rcvbuf : Nat := 24

def ETIMEDOUT : Nat := 110
def EMSGSIZE : Nat := 90
def ECONNREFUSED : Nat := 111
def EPROTO : Nat := 71
def EHOSTUNREACH : Nat := 113
def ENETUNREACH : Nat := 101
def EACCES : Nat := 13

def SO_EE_ORIGIN_LOCAL : Nat := 1
def SO_EE_ORIGIN_ICMP : Nat := 2
def SO_EE_ORIGIN_ICMP6 : Nat := 3

/-- The observable per-notification output of recverr that the claims
talk about, one constructor per printf class. -/
inductive OutEvent where
  | rtt (diffUs : Int)
  | brokenRouter
  | pmtu (info : Nat)
  | reached
  | asymm (h : Int)
  | noInfo
  | bangH
  | bangP
  | bangN
  | bangA
  | netErr
  | newline
  deriving DecidableEq, Repr

/-- The local variables of recverr whose final values the claims
constrain: the resolved send-side hop count sndhops, the resolved send
timestamp rettv, the broken_router flag, and rethops (raw before the
switch in the no-error-record path, normalized otherwise). -/
structure DecodeInfo where
  sndhops : Int
  rettv : Option Timeval
  broken_router : Bool
  rethops : Int
  deriving DecidableEq, Repr

/-- Result of processing one received notification in recverr: the
updated run state, the return behaviour (some r models return r, none
models goto restart), the printed events, and the decoded values. -/
structure StepResult where
  state : RunState
  ret : Option Int
  events : List OutEvent
  info : DecodeInfo

/-- History lookup of recverr lines 177-181: slot must satisfy
slot >= 0 && slot < 63 and the record must be live (hops nonzero); a
hit returns the record's hops and sendtime and clears the record's hops
field. -/
def hisLookup (his : His) (slot : Int) : Option (Int × Timeval) × His :=
  if h : 0 ≤ slot ∧ slot < 63 then
    let i : Fin 64 := ⟨slot.toNat, by omega⟩
    if (his i).hops ≠ 0 then
      (some ((his i).hops, (his i).sendtime),
       Function.update his i { his i with hops := 0 })
    else
      (none, his)
  else
    (none, his)

/-- The raw rethops value before normalization: the ancillary hop limit
when one was delivered, otherwise the initial -1 of line 161. -/
def rethopsRaw (m : RecvMsg) : Int :=
  match m.hoplimit with
  | some t => t
  | none => -1

/-- recverr lines 167-189: derive the slot from the reply's destination
port as ntohs(port) - base_port (no modulo reduction), take the history
record when the slot check passes, then let a full-size echoed payload
override sndhops/rettv unless its ttl or tv_sec field is zero, in which
case broken_router is flagged and the history values are kept. -/
def decodeCore (ctl : RunState) (m : RecvMsg) : DecodeInfo × RunState :=
  let slot : Int := (m.port : Int) - (ctl.base_port : Int)
  let lk := hisLookup ctl.his slot
  let sndhops0 : Int := match lk.1 with | some p => p.1 | none => -1
  let rettv0 : Option Timeval := match lk.1 with | some p => some p.2 | none => none
  let ctl1 : RunState := { ctl with his := lk.2 }
  let info : DecodeInfo :=
    if m.recv_size = sizeof_rcvbuf then
      if m.rcvbuf.ttl = 0 ∨ m.rcvbuf.tv.sec = 0 then
        { sndhops := sndhops0, rettv := rettv0, broken_router := true,
          rethops := rethopsRaw m }
      else
        { sndhops := (m.rcvbuf.ttl : Int), rettv := some m.rcvbuf.tv,
          broken_router := false, rethops := rethopsRaw m }
    else
      { sndhops := sndhops0, rettv := rettv0, broken_router := false,
        rethops := rethopsRaw m }
  (info, ctl1)

/-- recverr lines 278-283: normalize the received hop limit against the
canonical initial TTLs 64, 128, 255. -/
def normalizeHops (r : Int) : Int :=
  if r ≤ 64 then 65 - r
  else if r ≤ 128 then 129 - r
  else 256 - r

/-- recverr lines 302-308: the canonical time-exceeded signature under
EHOSTUNREACH (ICMP type 11 code 0, or ICMPv6 type 3 code 0). -/
def canonicalHostUnreach (e : SockExtErr) : Bool :=
  (e.ee_origin == SO_EE_ORIGIN_ICMP && e.ee_type == 11 && e.ee_code == 0) ||
  (e.ee_origin == SO_EE_ORIGIN_ICMP6 && e.ee_type == 3 && e.ee_code == 0)

/-- recverr lines 270-276: the RTT line printed when a send timestamp
was resolved, with the broken-router annotation appended when the flag
was set. -/
def rttEvents (now : Timeval) (info : DecodeInfo) : List OutEvent :=
  match info.rettv with
  | some t =>
      OutEvent.rtt ((now.sec - t.sec) * 1000000 + (now.usec - t.usec)) ::
        (if info.broken_router then [OutEvent.brokenRouter] else [])
  | none => []

/-- recverr lines 309-314: the asymmetry annotation under the canonical
EHOSTUNREACH signature, printed when the (normalized) receive-side hop
count is nonnegative and disagrees with the send-side hop count, or
with the raw probe TTL when no send-side value was resolved. -/
def asymmEvents (ttl : Int) (info : DecodeInfo) : List OutEvent :=
  if 0 ≤ info.rethops then
    if 0 ≤ info.sndhops ∧ info.rethops ≠ info.sndhops then
      [OutEvent.asymm info.rethops]
    else if info.sndhops < 0 ∧ info.rethops ≠ ttl then
      [OutEvent.asymm info.rethops]
    else []
  else []

/-- recverr lines 270-331: the RTT print (with the broken-router
annotation when flagged), followed by the switch on ee_errno.  Here
info.rethops already carries the normalized value. -/
def afterInfo (ctl1 : RunState) (ttl : Int) (now : Timeval) (e : SockExtErr)
    (info : DecodeInfo) : StepResult :=
  let rttEvs : List OutEvent := rttEvents now info
  if e.ee_errno = ETIMEDOUT then
    { state := ctl1, ret := none, events := rttEvs ++ [OutEvent.newline], info := info }
  else if e.ee_errno = EMSGSIZE then
    { state := { ctl1 with mtu := (e.ee_info : Int) }, ret := none,
      events := rttEvs ++ [OutEvent.pmtu e.ee_info], info := info }
  else if e.ee_errno = ECONNREFUSED then
    { state := { ctl1 with
        hops_to := if info.sndhops < 0 then ttl else info.sndhops,
        hops_from := info.rethops },
      ret := some 0, events := rttEvs ++ [OutEvent.reached], info := info }
  else if e.ee_errno = EPROTO then
    { state := ctl1, ret := some 0, events := rttEvs ++ [OutEvent.bangP], info := info }
  else if e.ee_errno = EHOSTUNREACH then
    if canonicalHostUnreach e then
      { state := ctl1, ret := none,
        events := rttEvs ++ asymmEvents ttl info ++ [OutEvent.newline], info := info }
    else
      { state := ctl1, ret := some 0, events := rttEvs ++ [OutEvent.bangH], info := info }
  else if e.ee_errno = ENETUNREACH then
    { state := ctl1, ret := some 0, events := rttEvs ++ [OutEvent.bangN], info := info }
  else if e.ee_errno = EACCES then
    { state := ctl1, ret := some 0, events := rttEvs ++ [OutEvent.bangA], info := info }
  else
    { state := ctl1, ret := some 0, events := rttEvs ++ [OutEvent.netErr], info := info }

/-- One full pass of recverr's per-notification body (lines 159-332):
history/payload resolution, the e == NULL early return printing
"no info", the hop-limit normalization, and the errno switch. -/
def recverrStep (ctl : RunState) (ttl : Int) (m : RecvMsg) : StepResult :=
  let dc := decodeCore ctl m
  match m.err with
  | none =>
      { state := dc.2, ret := some 0, events := [OutEvent.noInfo], info := dc.1 }
  | some e =>
      afterInfo dc.2 ttl m.now e { dc.1 with rethops := normalizeHops dc.1.rethops }

/-- The drain loop of recverr (goto restart, lines 147-332) over an
explicit queue of pending notifications; the second component is the
value recverr returns (progress, i.e. the last mtu seen, when the queue
drains with EAGAIN; the switch's return value otherwise). -/
def recverrDrain (ttl : Int) : RunState → List RecvMsg → Int →
    RunState × Int × List OutEvent
  | ctl, [], progress => (ctl, progress, [])
  | ctl, m :: rest, _ =>
    let r := recverrStep ctl ttl m
    match r.ret with
    | some v => (r.state, v, r.events)
    | none =>
        let rec2 := recverrDrain ttl r.state rest r.state.mtu
        (rec2.1, rec2.2.1, r.events ++ rec2.2.2)

/-- What one successful sendto of probe_ttl transmits (lines 345-360):
the payload length, the destination port, and the payload header
contents written just before the send. -/
structure SentPkt where
  len : Int
  port : Nat
  payloadTtl : Int
  sendtime : Timeval
  deriving DecidableEq, Repr

/-- One send attempt of probe_ttl (lines 345-360): the packet goes to
port htons(base_port + hisptr) with ctl->mtu - ctl->overhead payload
bytes, and the history record at hisptr is set to (ttl, send time). -/
def probeSend (ctl : RunState) (ttl : Int) (now : Timeval) : SentPkt × RunState :=
  ({ len := ctl.mtu - ctl.overhead,
     port := (ctl.base_port + ctl.hisptr.val) % 65536,
     payloadTtl := ttl,
     sendtime := now },
   { ctl with his := Function.update ctl.his ctl.hisptr { hops := ttl, sendtime := now } })

/-- The address family of the resolved destination. -/
inductive Family where
  | v4
  | v6
  deriving DecidableEq, Repr

/-- Modelled from the spec wording of claim C3: the per-family overhead
constant, 28 bytes for IPv4 and 48 bytes for IPv6. -/
def familyOverhead : Family → Int
  | Family.v4 => 28
  | Family.v6 => 48

/-- The overhead constant main installs (lines 529-566): AF_INET6 sets
48, but a v4-mapped IPv6 target falls through to the AF_INET case,
which sets 28; AF_INET sets 28. -/
def sessionOverhead : Family → Bool → Int
  | Family.v6, false => 48
  | Family.v6, true => 28
  | Family.v4, _ => 28

/-- How one TTL stage of main ends: res == 0 jumps to done, otherwise
the stage advances to the next TTL (with the "no reply" line when the
3 attempts were exhausted with res < 0); traceEnded flags that the
oracle of probe results ran out. -/
inductive StageClose where
  | doneStage
  | advance (noReply : Bool)
  | traceEnded
  deriving DecidableEq, Repr

/-- Output of one TTL stage: how it closed, the final mtu, and the
budget trace: for each probe_ttl call made, the number of attempts
(3 - i) still available when it ran. -/
structure StageOut where
  close : StageClose
  mtu : Int
  budgets : List Nat
  deriving DecidableEq, Repr

/-- The per-TTL attempt loop of main (lines 611-626).  Each oracle
entry (res, mtu') gives one probe_ttl call's return value and the mtu
it left behind.  A changed mtu jumps to restart, i.e. re-enters the
loop with the full budget of 3; res == 0 ends the run; res > 0 breaks
to the next TTL; res < 0 consumes one attempt; an exhausted budget
prints "no reply" and advances. -/
def runStage (budget : Nat) (mtu : Int) (tr : List (Int × Int)) : StageOut :=
  match budget, tr with
  | 0, _ => ⟨StageClose.advance true, mtu, []⟩
  | _ + 1, [] => ⟨StageClose.traceEnded, mtu, []⟩
  | b + 1, (res, mtu') :: tr' =>
    if mtu' ≠ mtu then
      let o := runStage 3 mtu' tr'
      ⟨o.close, o.mtu, (b + 1) :: o.budgets⟩
    else if res = 0 then ⟨StageClose.doneStage, mtu, [b + 1]⟩
    else if 0 < res then ⟨StageClose.advance false, mtu, [b + 1]⟩
    else
      let o := runStage b mtu tr'
      ⟨o.close, o.mtu, (b + 1) :: o.budgets⟩

/-- How the whole run ends: destination reached or a terminal recverr
outcome (goto done), the TTL ceiling ("Too many hops"), or the
per-stage oracle running out. -/
inductive RunEnd where
  | reachedDone
  | tooManyHops
  | oracleGap
  deriving DecidableEq, Repr

/-- Observable outcome of main's escalation loop and epilogue
(lines 590-639): the TTLs whose stage ran, how the loop ended, the mtu
the epilogue reports, whether the Resume summary line was printed, and
the exit status. -/
structure MainOut where
  probedTtls : List Int
  endKind : RunEnd
  finalMtu : Int
  resumePrinted : Bool
  exitCode : Nat
  deriving DecidableEq, Repr

/-- The TTL escalation loop of main (lines 590-627) with its epilogue
(lines 628-639): while ttl <= max_hops run one stage (one oracle trace
per TTL); a stage closing with res == 0 jumps to done; falling out of
the loop prints "Too many hops: pmtu" first; both paths print the
Resume summary and exit(0). -/
def mainLoop (ttl maxHops : Int) (mtu : Int)
    (traces : List (List (Int × Int))) : MainOut :=
  if ttl ≤ maxHops then
    match traces with
    | [] => ⟨[], RunEnd.oracleGap, mtu, true, 0⟩
    | tr :: rest =>
      let o := runStage 3 mtu tr
      match o.close with
      | StageClose.doneStage => ⟨[ttl], RunEnd.reachedDone, o.mtu, true, 0⟩
      | StageClose.advance _ =>
        let m := mainLoop (ttl + 1) maxHops o.mtu rest
        ⟨ttl :: m.probedTtls, m.endKind, m.finalMtu, m.resumePrinted, m.exitCode⟩
      | StageClose.traceEnded => ⟨[ttl], RunEnd.oracleGap, o.mtu, true, 0⟩
  else ⟨[], RunEnd.tooManyHops, mtu, true, 0⟩

/-! Concrete states and notifications used to instantiate the claim
theorems on explicit inputs. -/

def tv0 : Timeval := ⟨0, 0⟩

def hEmpty : HHistory := ⟨0, tv0⟩

def emptyHis : His := fun _ => hEmpty

/-- A session state after a default IPv4 setup with -l 1500. -/
def ctl0 : RunState :=
  { his := emptyHis, hisptr := 0, base_port := 44444, max_hops := 30,
    overhead := 28, mtu := 1500, hops_to := -1, hops_from := -1, mapped := false }

/-- Message-too-big record advertising 9000 bytes. -/
def eBig : SockExtErr :=
  { ee_errno := EMSGSIZE, ee_origin := SO_EE_ORIGIN_ICMP, ee_type := 3,
    ee_code := 4, ee_info := 9000 }

def mBig : RecvMsg :=
  { recv_size := 0, rcvbuf := ⟨0, tv0⟩, port := 44444, err := some eBig,
    hoplimit := none, now := ⟨10, 0⟩ }

def ctl1400 : RunState := { ctl0 with mtu := 1480 }

/-- Message-too-big record advertising 1400 bytes. -/
def eSmall : SockExtErr := { eBig with ee_info := 1400 }

def mSmall : RecvMsg := { mBig with err := some eSmall }

/-- Time-exceeded record (the ETIMEDOUT classification). -/
def eTimedOut : SockExtErr :=
  { ee_errno := ETIMEDOUT, ee_origin := SO_EE_ORIGIN_ICMP, ee_type := 11,
    ee_code := 0, ee_info := 0 }

def mHop60 : RecvMsg :=
  { recv_size := 0, rcvbuf := ⟨0, tv0⟩, port := 44444, err := some eTimedOut,
    hoplimit := some 60, now := ⟨10, 0⟩ }

/-- History ring with a live record (hops 5) in slot 63. -/
def his63 : His := Function.update emptyHis 63 ⟨5, ⟨100, 7⟩⟩

def ctlSlot63 : RunState := { ctl0 with his := his63 }

/-- Reply whose destination port is base_port + 63. -/
def m63 : RecvMsg :=
  { recv_size := 0, rcvbuf := ⟨0, tv0⟩, port := 44507, err := some eTimedOut,
    hoplimit := none, now := ⟨10, 0⟩ }

/-- History ring with a live record (hops 7) in slot 0. -/
def his0 : His := Function.update emptyHis 0 ⟨7, ⟨100, 7⟩⟩

def ctlSlot0 : RunState := { ctl0 with his := his0 }

/-- Reply whose destination port is base_port + 64. -/
def m64 : RecvMsg := { m63 with port := 44508 }

/-- History ring with a live record (hops 9) in slot 62. -/
def his62 : His := Function.update emptyHis 62 ⟨9, ⟨100, 7⟩⟩

def ctlSlot62 : RunState := { ctl0 with his := his62 }

/-- Reply whose destination port is base_port + 62. -/
def m62 : RecvMsg := { m63 with port := 44506 }

/-- Port-unreachable record (the ECONNREFUSED classification). -/
def eRefused : SockExtErr :=
  { ee_errno := ECONNREFUSED, ee_origin := SO_EE_ORIGIN_ICMP, ee_type := 3,
    ee_code := 3, ee_info := 0 }

/-- Canonical host-unreachable record: ICMP type 11 code 0. -/
def eHost : SockExtErr :=
  { ee_errno := EHOSTUNREACH, ee_origin := SO_EE_ORIGIN_ICMP, ee_type := 11,
    ee_code := 0, ee_info := 0 }

/-- Host-unreachable record with a non-canonical code. -/
def eHostBad : SockExtErr := { eHost with ee_code := 1 }

/-- Full-size echoed payload whose ttl field is zero, arriving for the
live slot-62 record of ctlSlot62. -/
def mBroken : RecvMsg :=
  { recv_size := 24, rcvbuf := ⟨0, ⟨50, 0⟩⟩, port := 44506,
    err := some eTimedOut, hoplimit := some 60, now := ⟨10, 0⟩ }

/-- Full-size echoed payload with both fields nonzero. -/
def mGood : RecvMsg := { mBroken with rcvbuf := ⟨4, ⟨50, 1⟩⟩ }

/-- Port-unreachable notification with a healthy echoed payload
(ttl 5) and hop limit 60. -/
def mReach : RecvMsg :=
  { recv_size := 24, rcvbuf := ⟨5, ⟨50, 1⟩⟩, port := 44444,
    err := some eRefused, hoplimit := some 60, now := ⟨10, 0⟩ }

/-- Canonical host-unreachable notification with echoed ttl 5 and hop
limit 62 (receive-side 3, disagreeing with the send-side 5). -/
def mAsym : RecvMsg :=
  { recv_size := 24, rcvbuf := ⟨5, ⟨50, 1⟩⟩, port := 44444,
    err := some eHost, hoplimit := some 62, now := ⟨10, 0⟩ }

/-- Host-unreachable notification with a non-canonical code. -/
def mHostBad : RecvMsg := { mAsym with err := some eHostBad }

/-- Port-unreachable notification with no ancillary hop limit. -/
def mReachNoHop : RecvMsg := { mReach with hoplimit := none }

/-- Canonical host-unreachable notification with no ancillary hop
limit. -/
def mHostNoHop : RecvMsg := { mAsym with hoplimit := none }

/-- A session for an IPv4-mapped IPv6 destination: main's AF_INET6 arm
sets ctl.mapped and falls through to the AF_INET arm (lines 557-562),
which installs overhead 28. -/
def ctlMapped : RunState := { ctl0 with mapped := true }

/-! Helper lemmas: branch characterizations of the embedded decoder. -/

theorem afterInfo_info (ctl1 : RunState) (ttl : Int) (now : Timeval)
    (e : SockExtErr) (info : DecodeInfo) :
    (afterInfo ctl1 ttl now e info).info = info := by
  unfold afterInfo
  split_ifs <;> rfl

theorem recverrStep_some (ctl : RunState) (ttl : Int) (m : RecvMsg) (e : SockExtErr)
    (he : m.err = some e) :
    recverrStep ctl ttl m =
      afterInfo (decodeCore ctl m).2 ttl m.now e
        { (decodeCore ctl m).1 with
            rethops := normalizeHops (decodeCore ctl m).1.rethops } := by
  unfold recverrStep
  rw [he]

theorem decodeCore_state (ctl : RunState) (m : RecvMsg) :
    (decodeCore ctl m).2 =
      { ctl with
          his := (hisLookup ctl.his ((m.port : Int) - (ctl.base_port : Int))).2 } := by
  unfold decodeCore
  split_ifs <;> rfl

theorem decodeCore_rethops (ctl : RunState) (m : RecvMsg) :
    (decodeCore ctl m).1.rethops = rethopsRaw m := by
  unfold decodeCore
  split_ifs <;> rfl

theorem afterInfo_timedout (ctl1 : RunState) (ttl : Int) (now : Timeval)
    (e : SockExtErr) (info : DecodeInfo) (hm : e.ee_errno = ETIMEDOUT) :
    afterInfo ctl1 ttl now e info =
      { state := ctl1, ret := none,
        events := rttEvents now info ++ [OutEvent.newline], info := info } := by
  unfold afterInfo
  rw [hm]
  simp

theorem afterInfo_emsgsize (ctl1 : RunState) (ttl : Int) (now : Timeval)
    (e : SockExtErr) (info : DecodeInfo) (hm : e.ee_errno = EMSGSIZE) :
    afterInfo ctl1 ttl now e info =
      { state := { ctl1 with mtu := (e.ee_info : Int) }, ret := none,
        events := rttEvents now info ++ [OutEvent.pmtu e.ee_info], info := info } := by
  unfold afterInfo
  rw [hm]
  simp [ETIMEDOUT, EMSGSIZE]

theorem afterInfo_connrefused (ctl1 : RunState) (ttl : Int) (now : Timeval)
    (e : SockExtErr) (info : DecodeInfo) (hm : e.ee_errno = ECONNREFUSED) :
    afterInfo ctl1 ttl now e info =
      { state := { ctl1 with
            hops_to := if info.sndhops < 0 then ttl else info.sndhops,
            hops_from := info.rethops },
        ret := some 0,
        events := rttEvents now info ++ [OutEvent.reached], info := info } := by
  unfold afterInfo
  rw [hm]
  simp [ETIMEDOUT, EMSGSIZE, ECONNREFUSED]

theorem afterInfo_hostunreach_canon (ctl1 : RunState) (ttl : Int) (now : Timeval)
    (e : SockExtErr) (info : DecodeInfo) (hm : e.ee_errno = EHOSTUNREACH)
    (hc : canonicalHostUnreach e = true) :
    afterInfo ctl1 ttl now e info =
      { state := ctl1, ret := none,
        events := rttEvents now info ++ asymmEvents ttl info ++ [OutEvent.newline],
        info := info } := by
  unfold afterInfo
  rw [hm]
  simp [ETIMEDOUT, EMSGSIZE, ECONNREFUSED, EPROTO, EHOSTUNREACH, hc]

theorem afterInfo_hostunreach_other (ctl1 : RunState) (ttl : Int) (now : Timeval)
    (e : SockExtErr) (info : DecodeInfo) (hm : e.ee_errno = EHOSTUNREACH)
    (hc : canonicalHostUnreach e = false) :
    afterInfo ctl1 ttl now e info =
      { state := ctl1, ret := some 0,
        events := rttEvents now info ++ [OutEvent.bangH], info := info } := by
  unfold afterInfo
  rw [hm]
  simp [ETIMEDOUT, EMSGSIZE, ECONNREFUSED, EPROTO, EHOSTUNREACH, hc]

/-- Every branch of the errno switch other than ECONNREFUSED leaves the
hops_to and hops_from fields of the state untouched. -/
theorem afterInfo_hops_unchanged (ctl1 : RunState) (ttl : Int) (now : Timeval)
    (e : SockExtErr) (info : DecodeInfo) (hm : e.ee_errno ≠ ECONNREFUSED) :
    (afterInfo ctl1 ttl now e info).state.hops_to = ctl1.hops_to ∧
    (afterInfo ctl1 ttl now e info).state.hops_from = ctl1.hops_from := by
  unfold afterInfo
  split_ifs with h1 h2 h3 <;> simp_all

theorem decodeCore_hops_to (ctl : RunState) (m : RecvMsg) :
    (decodeCore ctl m).2.hops_to = ctl.hops_to := by
  rw [decodeCore_state]

theorem decodeCore_hops_from (ctl : RunState) (m : RecvMsg) :
    (decodeCore ctl m).2.hops_from = ctl.hops_from := by
  rw [decodeCore_state]

theorem decodeCore_mtu (ctl : RunState) (m : RecvMsg) :
    (decodeCore ctl m).2.mtu = ctl.mtu := by
  rw [decodeCore_state]

/-- The sndhops, rettv and broken_router values the decoder ends up
with are those computed by decodeCore, whatever the error record. -/
theorem recverrStep_info_core (ctl : RunState) (ttl : Int) (m : RecvMsg) :
    (recverrStep ctl ttl m).info.sndhops = (decodeCore ctl m).1.sndhops ∧
    (recverrStep ctl ttl m).info.rettv = (decodeCore ctl m).1.rettv ∧
    (recverrStep ctl ttl m).info.broken_router = (decodeCore ctl m).1.broken_router := by
  cases h : m.err with
  | none =>
      unfold recverrStep
      rw [h]
      exact ⟨rfl, rfl, rfl⟩
  | some e =>
      rw [recverrStep_some ctl ttl m e h, afterInfo_info]
      exact ⟨rfl, rfl, rfl⟩

theorem hisLookup_out (his : His) (slot : Int) (h : slot < 0 ∨ 63 ≤ slot) :
    (hisLookup his slot).1 = none := by
  unfold hisLookup
  rw [dif_neg (by omega)]

theorem hisLookup_hit (his : His) (slot : Int) (i : Fin 64)
    (hi : ((i : Nat) : Int) = slot) (hlt : (i : Nat) < 63)
    (hl : (his i).hops ≠ 0) :
    (hisLookup his slot).1 = some ((his i).hops, (his i).sendtime) := by
  have h0 : 0 ≤ slot := by omega
  have h63 : slot < 63 := by omega
  unfold hisLookup
  rw [dif_pos ⟨h0, h63⟩]
  have hmk : (⟨slot.toNat, by omega⟩ : Fin 64) = i := by
    apply Fin.ext
    simp only []
    omega
  rw [hmk, if_pos hl]

theorem hisLookup_dead (his : His) (slot : Int) (i : Fin 64)
    (hi : ((i : Nat) : Int) = slot) (hlt : (i : Nat) < 63)
    (hl : (his i).hops = 0) :
    (hisLookup his slot).1 = none := by
  have h0 : 0 ≤ slot := by omega
  have h63 : slot < 63 := by omega
  unfold hisLookup
  rw [dif_pos ⟨h0, h63⟩]
  have hmk : (⟨slot.toNat, by omega⟩ : Fin 64) = i := by
    apply Fin.ext
    simp only []
    omega
  rw [hmk, if_neg (by simpa using hl)]

/-- Without a full-size echoed payload, decodeCore's sndhops/rettv come
straight from the history lookup and no broken-router flag is set. -/
theorem decodeCore_no_payload (ctl : RunState) (m : RecvMsg)
    (hsz : m.recv_size ≠ sizeof_rcvbuf) :
    (decodeCore ctl m).1.sndhops =
      (match (hisLookup ctl.his ((m.port : Int) - (ctl.base_port : Int))).1 with
       | some p => p.1 | none => -1) ∧
    (decodeCore ctl m).1.rettv =
      (match (hisLookup ctl.his ((m.port : Int) - (ctl.base_port : Int))).1 with
       | some p => some p.2 | none => none) ∧
    (decodeCore ctl m).1.broken_router = false := by
  unfold decodeCore
  simp [hsz]

/-- With a full-size echoed payload whose ttl or tv_sec field is zero,
decodeCore keeps the history lookup's values and flags broken_router. -/
theorem decodeCore_payload_broken (ctl : RunState) (m : RecvMsg)
    (hsz : m.recv_size = sizeof_rcvbuf)
    (hz : m.rcvbuf.ttl = 0 ∨ m.rcvbuf.tv.sec = 0) :
    (decodeCore ctl m).1.sndhops =
      (match (hisLookup ctl.his ((m.port : Int) - (ctl.base_port : Int))).1 with
       | some p => p.1 | none => -1) ∧
    (decodeCore ctl m).1.rettv =
      (match (hisLookup ctl.his ((m.port : Int) - (ctl.base_port : Int))).1 with
       | some p => some p.2 | none => none) ∧
    (decodeCore ctl m).1.broken_router = true := by
  unfold decodeCore
  simp [hsz, hz]

/-- With a full-size echoed payload whose ttl and tv_sec fields are both
nonzero, the payload values take precedence. -/
theorem decodeCore_payload_good (ctl : RunState) (m : RecvMsg)
    (hsz : m.recv_size = sizeof_rcvbuf)
    (ht : m.rcvbuf.ttl ≠ 0) (hs : m.rcvbuf.tv.sec ≠ 0) :
    (decodeCore ctl m).1.sndhops = (m.rcvbuf.ttl : Int) ∧
    (decodeCore ctl m).1.rettv = some m.rcvbuf.tv ∧
    (decodeCore ctl m).1.broken_router = false := by
  unfold decodeCore
  simp [hsz, ht, hs]

/-- Whatever the errno, the switch's event list contains every RTT-line
event printed at lines 270-276. -/
theorem rtt_mem_afterInfo (ctl1 : RunState) (ttl : Int) (now : Timeval)
    (e : SockExtErr) (info : DecodeInfo) (x : OutEvent)
    (hx : x ∈ rttEvents now info) :
    x ∈ (afterInfo ctl1 ttl now e info).events := by
  unfold afterInfo
  split_ifs <;> simp [hx]

theorem brokenRouter_mem_rttEvents (now : Timeval) (info : DecodeInfo) (t : Timeval)
    (hsome : info.rettv = some t) (hb : info.broken_router = true) :
    OutEvent.brokenRouter ∈ rttEvents now info := by
  unfold rttEvents
  rw [hsome]
  simp [hb]

theorem normalizeHops_nonneg (r : Int) (h : r ≤ 255) : 0 ≤ normalizeHops r := by
  unfold normalizeHops
  split_ifs <;> omega

theorem rethopsRaw_le (m : RecvMsg) (hb : ∀ t, m.hoplimit = some t → t ≤ 255) :
    rethopsRaw m ≤ 255 := by
  unfold rethopsRaw
  cases h : m.hoplimit with
  | none => norm_num
  | some t => exact hb t h

theorem asymm_mem (ttl : Int) (info : DecodeInfo) (h0 : 0 ≤ info.rethops)
    (hd : (0 ≤ info.sndhops ∧ info.rethops ≠ info.sndhops) ∨
      (info.sndhops < 0 ∧ info.rethops ≠ ttl)) :
    OutEvent.asymm info.rethops ∈ asymmEvents ttl info := by
  unfold asymmEvents
  rw [if_pos h0]
  rcases hd with ⟨h1, h2⟩ | ⟨h1, h2⟩
  · rw [if_pos ⟨h1, h2⟩]
    simp
  · rw [if_neg (fun hcon => absurd hcon.1 (by omega)), if_pos ⟨h1, h2⟩]
    simp

/-! Claim theorems. -/

/-- C1 (counterexample): the claim that the MTU estimate never
increases fails on the code.  recverr's EMSGSIZE branch assigns
ctl->mtu = e->ee_info unconditionally, so with an estimate of 1500 a
message-too-big notification advertising 9000 raises the estimate. -/
theorem mtu_can_increase_cx :
    ctl0.mtu = 1500 ∧
    (recverrStep ctl0 1 mBig).state.mtu = 9000 ∧
    ¬ (recverrStep ctl0 1 mBig).state.mtu ≤ ctl0.mtu := by
  decide

/-- C1 (amended): after a message-too-big notification the MTU estimate
equals the notified value e->ee_info (and the decoder keeps draining,
signalling a repeat of the TTL); consequently the estimate does not
increase exactly when the notified value is at most the prior
estimate. -/
theorem mtu_set_to_notified (ctl : RunState) (ttl : Int) (m : RecvMsg)
    (e : SockExtErr) (he : m.err = some e) (hm : e.ee_errno = EMSGSIZE) :
    (recverrStep ctl ttl m).state.mtu = (e.ee_info : Int) ∧
    (recverrStep ctl ttl m).ret = none ∧
    ((e.ee_info : Int) ≤ ctl.mtu → (recverrStep ctl ttl m).state.mtu ≤ ctl.mtu) := by
  rw [recverrStep_some ctl ttl m e he, afterInfo_emsgsize _ _ _ _ _ hm]
  refine ⟨rfl, rfl, ?_⟩
  intro hle
  simpa using hle

theorem mtu_set_to_notified_witness :
    (recverrStep ctl1400 1 mSmall).state.mtu = 1400 ∧
    (recverrStep ctl1400 1 mSmall).ret = none ∧
    (recverrStep ctl1400 1 mSmall).state.mtu ≤ ctl1400.mtu := by
  have h := mtu_set_to_notified ctl1400 1 mSmall eSmall rfl rfl
  exact ⟨h.1, h.2.1, h.2.2 (by decide)⟩

/-- C5: with an error record present and an ancillary hop limit t, the
decoded receive-side hop count is 65 - t for t <= 64, 129 - t for
64 < t <= 128, and 256 - t otherwise. -/
theorem rethops_normalized (ctl : RunState) (ttl : Int) (m : RecvMsg)
    (e : SockExtErr) (t : Int) (he : m.err = some e) (ht : m.hoplimit = some t) :
    (recverrStep ctl ttl m).info.rethops =
      if t ≤ 64 then 65 - t else if t ≤ 128 then 129 - t else 256 - t := by
  rw [recverrStep_some ctl ttl m e he, afterInfo_info]
  simp [decodeCore_rethops, rethopsRaw, ht, normalizeHops]

theorem rethops_normalized_witness :
    (recverrStep ctl0 3 mHop60).info.rethops = 5 := by
  have h := rethops_normalized ctl0 3 mHop60 eTimedOut 60 rfl rfl
  simpa using h

/-- C2 (counterexample): the claimed slot semantics fail on the code in
two concrete cases.  First, a live record in slot 63 (reply port
base_port + 63, which the claim's (port - base_port) mod 64 maps to the
in-range slot 63) is never matched, because the code checks
slot < 63 against the 64-entry ring.  Second, a reply at port
base_port + 64 (claimed slot 64 mod 64 = 0, live) is unmatched, because
the code subtracts without any modulo reduction. -/
theorem slot_lookup_cx :
    ((44507 - 44444) % 64 = 63 ∧ (ctlSlot63.his 63).hops = 5 ∧
      (recverrStep ctlSlot63 5 m63).info.sndhops = -1 ∧
      (recverrStep ctlSlot63 5 m63).info.rettv = none) ∧
    ((44508 - 44444) % 64 = 0 ∧ (ctlSlot0.his 0).hops = 7 ∧
      (recverrStep ctlSlot0 5 m64).info.sndhops = -1 ∧
      (recverrStep ctlSlot0 5 m64).info.rettv = none) := by
  decide

/-- C2 (amended): the correlation slot is the reply's destination port
minus base_port with no modulo reduction; the lookup takes the send-side
hop count and send time from the tracker exactly when 0 <= slot < 63
and the record is live, so a negative slot, any slot >= 63 (slot 63
included), or an empty record yields an unmatched lookup. -/
theorem slot_lookup_amended (ctl : RunState) (ttl : Int) (m : RecvMsg)
    (hsz : m.recv_size ≠ sizeof_rcvbuf) :
    (((m.port : Int) - (ctl.base_port : Int) < 0 ∨
        63 ≤ (m.port : Int) - (ctl.base_port : Int)) →
       (recverrStep ctl ttl m).info.sndhops = -1 ∧
       (recverrStep ctl ttl m).info.rettv = none) ∧
    (∀ i : Fin 64, ((i : Nat) : Int) = (m.port : Int) - (ctl.base_port : Int) →
       (i : Nat) < 63 →
       ((ctl.his i).hops ≠ 0 →
          (recverrStep ctl ttl m).info.sndhops = (ctl.his i).hops ∧
          (recverrStep ctl ttl m).info.rettv = some (ctl.his i).sendtime) ∧
       ((ctl.his i).hops = 0 →
          (recverrStep ctl ttl m).info.sndhops = -1 ∧
          (recverrStep ctl ttl m).info.rettv = none)) := by
  obtain ⟨hs, hr, -⟩ := recverrStep_info_core ctl ttl m
  obtain ⟨ds, dr, -⟩ := decodeCore_no_payload ctl m hsz
  refine ⟨?_, ?_⟩
  · intro hout
    rw [hs, ds, hr, dr, hisLookup_out ctl.his _ hout]
    exact ⟨rfl, rfl⟩
  · intro i hi hlt
    refine ⟨?_, ?_⟩
    · intro hlive
      rw [hs, ds, hr, dr, hisLookup_hit ctl.his _ i hi hlt hlive]
      exact ⟨rfl, rfl⟩
    · intro hdead
      rw [hs, ds, hr, dr, hisLookup_dead ctl.his _ i hi hlt hdead]
      exact ⟨rfl, rfl⟩

theorem slot_lookup_amended_witness :
    ((recverrStep ctlSlot62 5 m62).info.sndhops = 9 ∧
      (recverrStep ctlSlot62 5 m62).info.rettv = some ⟨100, 7⟩) ∧
    ((recverrStep ctlSlot0 5 m64).info.sndhops = -1 ∧
      (recverrStep ctlSlot0 5 m64).info.rettv = none) := by
  have h62 := slot_lookup_amended ctlSlot62 5 m62 (by decide)
  have h64 := slot_lookup_amended ctlSlot0 5 m64 (by decide)
  have hit := (h62.2 62 (by decide) (by decide)).1 (by decide)
  have out := h64.1 (by decide)
  refine ⟨⟨hit.1.trans (by decide), hit.2.trans (by decide)⟩, out⟩

/-- C4: for a full-size echoed payload whose ttl or tv_sec field is
zero, the decoder flags broken_router, keeps the History Tracker's
values for the send-side hop count and the send timestamp (the RTT
source), and prints the corrupted-payload annotation whenever the
tracker had a live record; with both fields nonzero the payload values
take precedence. -/
theorem broken_payload_uses_tracker (ctl : RunState) (ttl : Int) (m : RecvMsg)
    (e : SockExtErr) (he : m.err = some e) (hsz : m.recv_size = sizeof_rcvbuf) :
    ((m.rcvbuf.ttl = 0 ∨ m.rcvbuf.tv.sec = 0) →
       (recverrStep ctl ttl m).info.broken_router = true ∧
       (∀ p : Int × Timeval,
          (hisLookup ctl.his ((m.port : Int) - (ctl.base_port : Int))).1 = some p →
          (recverrStep ctl ttl m).info.sndhops = p.1 ∧
          (recverrStep ctl ttl m).info.rettv = some p.2 ∧
          OutEvent.brokenRouter ∈ (recverrStep ctl ttl m).events)) ∧
    ((m.rcvbuf.ttl ≠ 0 ∧ m.rcvbuf.tv.sec ≠ 0) →
       (recverrStep ctl ttl m).info.broken_router = false ∧
       (recverrStep ctl ttl m).info.sndhops = (m.rcvbuf.ttl : Int) ∧
       (recverrStep ctl ttl m).info.rettv = some m.rcvbuf.tv) := by
  obtain ⟨hs, hr, hbr⟩ := recverrStep_info_core ctl ttl m
  constructor
  · intro hz
    obtain ⟨ds, dr, db⟩ := decodeCore_payload_broken ctl m hsz hz
    refine ⟨hbr.trans db, ?_⟩
    intro p hp
    rw [hp] at ds dr
    refine ⟨hs.trans ds, hr.trans dr, ?_⟩
    rw [recverrStep_some ctl ttl m e he]
    apply rtt_mem_afterInfo
    exact brokenRouter_mem_rttEvents m.now _ p.2 dr db
  · intro hok
    obtain ⟨ds, dr, db⟩ := decodeCore_payload_good ctl m hsz hok.1 hok.2
    exact ⟨hbr.trans db, hs.trans ds, hr.trans dr⟩

theorem broken_payload_uses_tracker_witness :
    ((recverrStep ctlSlot62 5 mBroken).info.broken_router = true ∧
      (recverrStep ctlSlot62 5 mBroken).info.sndhops = 9 ∧
      (recverrStep ctlSlot62 5 mBroken).info.rettv = some ⟨100, 7⟩ ∧
      OutEvent.brokenRouter ∈ (recverrStep ctlSlot62 5 mBroken).events) ∧
    ((recverrStep ctlSlot62 5 mGood).info.broken_router = false ∧
      (recverrStep ctlSlot62 5 mGood).info.sndhops = 4 ∧
      (recverrStep ctlSlot62 5 mGood).info.rettv = some ⟨50, 1⟩) := by
  have hb := broken_payload_uses_tracker ctlSlot62 5 mBroken eTimedOut rfl rfl
  have hg := broken_payload_uses_tracker ctlSlot62 5 mGood eTimedOut rfl rfl
  have hb1 := hb.1 (by decide)
  have hb2 := hb1.2 (9, ⟨100, 7⟩) (by decide)
  have hg1 := hg.2 (by decide)
  exact ⟨⟨hb1.1, hb2.1, hb2.2.1, hb2.2.2⟩, ⟨hg1.1, hg1.2.1.trans (by decide), hg1.2.2⟩⟩

/-- C6: a port-unreachable notification makes recverr return 0 (the
run terminates via goto done in main, printing the final summary and
exiting 0), after recording hops_to as the resolved send-side hop count
(or the raw probe TTL when none was resolved) and hops_from as the
receive-side hop count; every other notification leaves both fields
untouched, so they are written at most once, at this termination. -/
theorem reached_records_hops (ctl : RunState) (ttl : Int) (m : RecvMsg) (e : SockExtErr)
    (he : m.err = some e) (hc : e.ee_errno = ECONNREFUSED) :
    (recverrStep ctl ttl m).ret = some 0 ∧
    OutEvent.reached ∈ (recverrStep ctl ttl m).events ∧
    (recverrStep ctl ttl m).state.hops_to =
      (if (recverrStep ctl ttl m).info.sndhops < 0 then ttl
       else (recverrStep ctl ttl m).info.sndhops) ∧
    (recverrStep ctl ttl m).state.hops_from = (recverrStep ctl ttl m).info.rethops ∧
    (∀ (ctl' : RunState) (ttl' : Int) (m' : RecvMsg),
       (∀ e', m'.err = some e' → e'.ee_errno ≠ ECONNREFUSED) →
       (recverrStep ctl' ttl' m').state.hops_to = ctl'.hops_to ∧
       (recverrStep ctl' ttl' m').state.hops_from = ctl'.hops_from) := by
  rw [recverrStep_some ctl ttl m e he, afterInfo_connrefused _ _ _ _ _ hc]
  refine ⟨rfl, by simp, rfl, rfl, ?_⟩
  intro ctl' ttl' m' hno
  cases h' : m'.err with
  | none =>
      unfold recverrStep
      rw [h']
      exact ⟨decodeCore_hops_to ctl' m', decodeCore_hops_from ctl' m'⟩
  | some e' =>
      rw [recverrStep_some ctl' ttl' m' e' h']
      obtain ⟨h1, h2⟩ :=
        afterInfo_hops_unchanged (decodeCore ctl' m').2 ttl' m'.now e' _ (hno e' h')
      exact ⟨h1.trans (decodeCore_hops_to ctl' m'), h2.trans (decodeCore_hops_from ctl' m')⟩

theorem reached_records_hops_witness :
    (recverrStep ctl0 5 mReach).ret = some 0 ∧
    OutEvent.reached ∈ (recverrStep ctl0 5 mReach).events ∧
    (recverrStep ctl0 5 mReach).state.hops_to = 5 ∧
    (recverrStep ctl0 5 mReach).state.hops_from = 5 ∧
    (recverrStep ctl0 3 mHop60).state.hops_to = ctl0.hops_to := by
  have h := reached_records_hops ctl0 5 mReach eRefused rfl rfl
  have hne : ∀ e', mHop60.err = some e' → e'.ee_errno ≠ ECONNREFUSED := by
    intro e' he'
    simp [mHop60] at he'
    rw [← he']
    decide
  have hun := h.2.2.2.2 ctl0 3 mHop60 hne
  exact ⟨h.1, h.2.1, h.2.2.1.trans (by decide), h.2.2.2.1.trans (by decide), hun.1⟩

/-- C9: under EHOSTUNREACH with the canonical time-exceeded signature
the notification is informational (recverr keeps draining), and when
the receive-side hop count disagrees with the send-side one (or with
the raw probe TTL when none was resolved) the asymm annotation carrying
the receive-side value is printed; a non-canonical signature prints !H
and makes recverr return 0, terminating the run. -/
theorem hostunreach_asymm (ctl : RunState) (ttl : Int) (m : RecvMsg) (e : SockExtErr)
    (he : m.err = some e) (hu : e.ee_errno = EHOSTUNREACH)
    (hb : ∀ t, m.hoplimit = some t → t ≤ 255) :
    (canonicalHostUnreach e = true →
       (recverrStep ctl ttl m).ret = none ∧
       (((0 ≤ (recverrStep ctl ttl m).info.sndhops ∧
            (recverrStep ctl ttl m).info.rethops ≠ (recverrStep ctl ttl m).info.sndhops) ∨
          ((recverrStep ctl ttl m).info.sndhops < 0 ∧
            (recverrStep ctl ttl m).info.rethops ≠ ttl)) →
          OutEvent.asymm (recverrStep ctl ttl m).info.rethops ∈
            (recverrStep ctl ttl m).events)) ∧
    (canonicalHostUnreach e = false →
       (recverrStep ctl ttl m).ret = some 0 ∧
       OutEvent.bangH ∈ (recverrStep ctl ttl m).events) := by
  constructor
  · intro hcan
    rw [recverrStep_some ctl ttl m e he, afterInfo_hostunreach_canon _ _ _ _ _ hu hcan]
    refine ⟨rfl, ?_⟩
    intro hd
    have h0 : (0 : Int) ≤ ({ (decodeCore ctl m).1 with
        rethops := normalizeHops (decodeCore ctl m).1.rethops } : DecodeInfo).rethops := by
      show (0 : Int) ≤ normalizeHops (decodeCore ctl m).1.rethops
      rw [decodeCore_rethops]
      exact normalizeHops_nonneg _ (rethopsRaw_le m hb)
    have hmem := asymm_mem ttl _ h0 hd
    simp only [List.mem_append]
    exact Or.inl (Or.inr hmem)
  · intro hcan
    rw [recverrStep_some ctl ttl m e he, afterInfo_hostunreach_other _ _ _ _ _ hu hcan]
    exact ⟨rfl, by simp⟩

theorem hostunreach_asymm_witness :
    ((recverrStep ctl0 5 mAsym).ret = none ∧
      OutEvent.asymm 3 ∈ (recverrStep ctl0 5 mAsym).events) ∧
    ((recverrStep ctl0 5 mHostBad).ret = some 0 ∧
      OutEvent.bangH ∈ (recverrStep ctl0 5 mHostBad).events) := by
  have hc := hostunreach_asymm ctl0 5 mAsym eHost rfl rfl
    (by intro t ht; simp [mAsym] at ht; omega)
  have hn := hostunreach_asymm ctl0 5 mHostBad eHostBad rfl rfl
    (by intro t ht; simp [mHostBad, mAsym] at ht; omega)
  have hc1 := hc.1 (by decide)
  have hmem := hc1.2 (Or.inl ⟨by decide, by decide⟩)
  rw [show (recverrStep ctl0 5 mAsym).info.rethops = 3 by decide] at hmem
  exact ⟨⟨hc1.1, hmem⟩, hn.2 (by decide)⟩

/-- C10: when no ancillary hop limit is delivered the raw value stays
-1, which the normalization turns into 65 - (-1) = 66; a destination
reached notification then records hops_from = 66, and a canonical
host-unreachable notification with a resolved send-side hop count other
than 66 prints asymm 66. -/
theorem missing_hoplimit_gives_66 (ctl : RunState) (ttl : Int) (m : RecvMsg)
    (e : SockExtErr) (he : m.err = some e) (hn : m.hoplimit = none) :
    (recverrStep ctl ttl m).info.rethops = 66 ∧
    (e.ee_errno = ECONNREFUSED → (recverrStep ctl ttl m).state.hops_from = 66) ∧
    (e.ee_errno = EHOSTUNREACH → canonicalHostUnreach e = true →
       0 ≤ (recverrStep ctl ttl m).info.sndhops →
       (recverrStep ctl ttl m).info.sndhops ≠ 66 →
       OutEvent.asymm 66 ∈ (recverrStep ctl ttl m).events) := by
  have h66 : normalizeHops (decodeCore ctl m).1.rethops = 66 := by
    rw [decodeCore_rethops]
    unfold rethopsRaw
    rw [hn]
    decide
  refine ⟨?_, ?_, ?_⟩
  · rw [recverrStep_some ctl ttl m e he, afterInfo_info]
    exact h66
  · intro hc
    rw [recverrStep_some ctl ttl m e he, afterInfo_connrefused _ _ _ _ _ hc]
    exact h66
  · intro hu hcan hge hne
    rw [recverrStep_some ctl ttl m e he, afterInfo_hostunreach_canon _ _ _ _ _ hu hcan]
      at hge hne ⊢
    have hproj : ({ (decodeCore ctl m).1 with
        rethops := normalizeHops (decodeCore ctl m).1.rethops } : DecodeInfo).rethops = 66 := h66
    have h0 : (0 : Int) ≤ ({ (decodeCore ctl m).1 with
        rethops := normalizeHops (decodeCore ctl m).1.rethops } : DecodeInfo).rethops := by
      rw [hproj]
      norm_num
    have hd : (0 ≤ ({ (decodeCore ctl m).1 with
          rethops := normalizeHops (decodeCore ctl m).1.rethops } : DecodeInfo).sndhops ∧
        ({ (decodeCore ctl m).1 with
          rethops := normalizeHops (decodeCore ctl m).1.rethops } : DecodeInfo).rethops ≠
          ({ (decodeCore ctl m).1 with
            rethops := normalizeHops (decodeCore ctl m).1.rethops } : DecodeInfo).sndhops) ∨
        (({ (decodeCore ctl m).1 with
          rethops := normalizeHops (decodeCore ctl m).1.rethops } : DecodeInfo).sndhops < 0 ∧
        ({ (decodeCore ctl m).1 with
          rethops := normalizeHops (decodeCore ctl m).1.rethops } : DecodeInfo).rethops ≠ ttl) :=
      Or.inl ⟨hge, by rw [hproj]; exact fun hcc => hne hcc.symm⟩
    have hmem := asymm_mem ttl _ h0 hd
    rw [hproj] at hmem
    simp only [List.mem_append]
    exact Or.inl (Or.inr hmem)

theorem missing_hoplimit_gives_66_witness :
    (recverrStep ctl0 5 mReachNoHop).info.rethops = 66 ∧
    (recverrStep ctl0 5 mReachNoHop).state.hops_from = 66 ∧
    OutEvent.asymm 66 ∈ (recverrStep ctl0 5 mHostNoHop).events := by
  have hr := missing_hoplimit_gives_66 ctl0 5 mReachNoHop eRefused rfl rfl
  have hh := missing_hoplimit_gives_66 ctl0 5 mHostNoHop eHost rfl rfl
  exact ⟨hr.1, hr.2.1 rfl, hh.2.2 rfl (by decide) (by decide) (by decide)⟩

/-- C3 (counterexample): the claim fails for an IPv4-mapped IPv6
session.  For such a destination the family is AF_INET6, so the claim's
overhead(family) is 48, but main's AF_INET6 arm falls through to the
AF_INET arm and installs overhead 28 (lines 557-562); with the default
overhead installed for the mapped session and mtu 1500, a probe send
transmits 1472 = 1500 - 28 bytes, not 1500 - 48 = 1452. -/
theorem probe_send_len_cx :
    ctlMapped.mapped = true ∧
    ctlMapped.overhead = sessionOverhead Family.v6 ctlMapped.mapped ∧
    ctlMapped.mtu = 1500 ∧
    (probeSend ctlMapped 1 tv0).1.len = 1472 ∧
    ¬ (probeSend ctlMapped 1 tv0).1.len = ctlMapped.mtu - familyOverhead Family.v6 := by
  decide

/-- C3 (amended): every probe send transmits exactly mtu - overhead
bytes, where mtu is the current MTU estimate at send time and overhead
is the session overhead constant installed by main: 28 for IPv4, 48 for
IPv6, except that an IPv4-mapped IPv6 destination also gets 28. -/
theorem probe_send_len_amended (ctl : RunState) (fam : Family) (ttl : Int) (now : Timeval)
    (hov : ctl.overhead = sessionOverhead fam ctl.mapped)
    (hgt : sessionOverhead fam ctl.mapped < ctl.mtu) :
    (probeSend ctl ttl now).1.len = ctl.mtu - sessionOverhead fam ctl.mapped ∧
    0 < (probeSend ctl ttl now).1.len ∧
    sessionOverhead Family.v4 ctl.mapped = 28 ∧
    sessionOverhead Family.v6 false = 48 ∧
    sessionOverhead Family.v6 true = 28 := by
  have h1 : (probeSend ctl ttl now).1.len = ctl.mtu - ctl.overhead := rfl
  rw [h1, hov]
  refine ⟨rfl, by omega, ?_, rfl, rfl⟩
  cases h : ctl.mapped <;> rfl

theorem probe_send_len_amended_witness :
    ((probeSend ctl0 1 tv0).1.len = 1472 ∧ 0 < (probeSend ctl0 1 tv0).1.len) ∧
    ((probeSend ctlMapped 1 tv0).1.len = 1472 ∧
      0 < (probeSend ctlMapped 1 tv0).1.len) := by
  have h4 := probe_send_len_amended ctl0 Family.v4 1 tv0 (by decide) (by decide)
  have h6 := probe_send_len_amended ctlMapped Family.v6 1 tv0 (by decide) (by decide)
  exact ⟨⟨h4.1.trans (by decide), h4.2.1⟩, ⟨h6.1.trans (by decide), h6.2.1⟩⟩

/-- C7: when an attempt changes the MTU estimate, the per-TTL loop
restarts the same TTL with a fresh budget of 3 attempts: the stage
continues exactly as runStage 3 on the remaining trace (regardless of
the b attempts that were left), and the attempt right after the change
runs with 3 attempts available. -/
theorem mtu_change_restarts_budget (b : Nat) (mtu res mtu' : Int)
    (tr : List (Int × Int)) (hne : mtu' ≠ mtu) :
    runStage (b + 1) mtu ((res, mtu') :: tr) =
      ⟨(runStage 3 mtu' tr).close, (runStage 3 mtu' tr).mtu,
        (b + 1) :: (runStage 3 mtu' tr).budgets⟩ ∧
    (∀ x tr2, tr = x :: tr2 → (runStage 3 mtu' tr).budgets.head? = some 3) := by
  constructor
  · rw [runStage]
    rw [if_pos hne]
  · rintro ⟨r2, m2⟩ tr2 rfl
    rw [runStage]
    split_ifs <;> rfl

theorem mtu_change_restarts_budget_witness :
    runStage 1 10 [(-1, 5), (0, 5)] = ⟨StageClose.doneStage, 5, [1, 3]⟩ ∧
    (runStage 3 5 [(0, 5)]).budgets.head? = some 3 := by
  have h := mtu_change_restarts_budget 0 10 (-1) 5 [(0, 5)] (by decide)
  exact ⟨h.1.trans (by decide), h.2 (0, 5) [] rfl⟩

/-- C8: with max_hops = 0 the escalation loop body never runs: no TTL
stage is entered (so no probe is sent), the run immediately reports
too many hops with the current MTU estimate, prints the final Resume
summary, and exits with status 0. -/
theorem maxhops_zero_no_probes (mtu : Int) (traces : List (List (Int × Int))) :
    mainLoop 1 0 mtu traces = ⟨[], RunEnd.tooManyHops, mtu, true, 0⟩ := by
  rw [mainLoop.eq_def]
  rw [if_neg (by norm_num)]

end Tracepath
